import Mathlib

/-!
Shallow embedding of the JSON:API client layer in
`src/transifex_api/jsonapi.py` (class `Resource` and its helpers), together
with models of the external collaborators that live in repository modules not
present under `src/` (`queryset.py`, `requests.py`, `globals.py`), which are
modelled from the interface contracts of the specification.

Python dictionaries are embedded as association lists (`List (String, α)`)
with first-match lookup; assignment replaces the value in place when the key
exists and appends otherwise, matching insertion-ordered `dict` semantics.
`None`-able Python values are embedded as `Option`.
-/

namespace Jsonapi

/-- Arbitrary JSON data stored in `attributes` values.  The client never
inspects attribute values, it only moves them around. -/
inductive JsonValue where
  | null : JsonValue
  | boolv (b : Bool) : JsonValue
  | num (n : Int) : JsonValue
  | str (s : String) : JsonValue
  | arr (xs : List JsonValue) : JsonValue
  | obj (fields : List (String × JsonValue)) : JsonValue

/-- First-match lookup in an association list (Python `d[k]` / `d.get(k)`). -/
def alookup {α : Type} (m : List (String × α)) (k : String) : Option α :=
  (m.find? (fun p => p.1 == k)).map (fun p => p.2)

/-- Key-membership test (Python `k in d`). -/
def akey {α : Type} (m : List (String × α)) (k : String) : Bool :=
  (m.find? (fun p => p.1 == k)).isSome

/-- Python `d[k] = v`: replace the first binding in place if the key
exists, else append at the end (insertion-ordered `dict` assignment). -/
def ainsert {α : Type} : List (String × α) → String → α → List (String × α)
  | [], k, v => [(k, v)]
  | p :: t, k, v => if p.1 == k then (k, v) :: t else p :: ainsert t k v

/-- Python `d.update(new)`. -/
def aupdate {α : Type} (m new : List (String × α)) : List (String × α) :=
  new.foldl (fun acc p => ainsert acc p.1 p.2) m

/-- Python `del d[k]`. -/
def aerase {α : Type} (m : List (String × α)) (k : String) :
    List (String × α) :=
  m.filter (fun p => !(p.1 == k))

/-- The keys of an association list, in order. -/
def akeys {α : Type} (m : List (String × α)) : List String :=
  m.map (fun p => p.1)

/-- The Python `str(x)` rendering for an optional string, as used in f-strings:
`None` renders as `"None"`. -/
def pyStr (s : Option String) : String :=
  match s with
  | some v => v
  | none => "None"

/-- A wire resource identifier: the dict `\x7btype, id\x7d` produced by
`Resource.as_resource_identifier`.  Either value may be Python `None`. -/
structure ResourceIdentifier where
  type : Option String
  id : Option String
deriving Repr, DecidableEq

/-- A non-null relationship descriptor dict.  `data = some _` models the
presence of a `data` key (the sole singular/plural discriminator in the
source); `links` models an optional `links` dict of string values. -/
structure RelDict where
  data : Option ResourceIdentifier
  links : Option (List (String × String))
deriving Repr, DecidableEq

/-- A relationship descriptor: `none` is the null singular descriptor,
`some rd` a descriptor dict. -/
abbrev RelDescriptor := Option RelDict

/-- Modelled from the spec: `queryset.py` is not under `src/`.  Per the spec a
Queryset is a lazy link-driven cursor: `Queryset(url)` records the anchoring
URL and is unfetched until first accessed; `from_data(payload)` seeds a
Queryset as already fetched from an in-hand response body with no request. -/
structure Queryset where
  url : Option String
  fetched : Bool
deriving Repr, DecidableEq

/-- `Queryset(url)`: a fresh, unfetched cursor anchored at `url`. -/
def Queryset.ofUrl (url : String) : Queryset := ⟨some url, false⟩

/-- `Queryset.from_data(body)`: already fetched, no anchoring request URL. -/
def Queryset.from_data : Queryset := ⟨none, true⟩

mutual

/-- A value of the `related` cache: the Python objects stored there are
`None` (null singular), a `Resource`, or a `Queryset`. -/
inductive RelatedValue where
  | nullv : RelatedValue
  | res (r : Resource) : RelatedValue
  | qs (q : Queryset) : RelatedValue

/-- The `Resource` entity.  `TYPE` and `EDITABLE` are the class attributes
the instance sees; `id`, `attributes`, `relationships`, `related`, `links`
are the instance fields written by `_overwrite`. -/
inductive Resource where
  | mk (TYPE : Option String) (EDITABLE : Option (List String))
      (id : Option String)
      (attributes : List (String × JsonValue))
      (relationships : List (String × RelDescriptor))
      (related : List (String × RelatedValue))
      (links : List (String × String)) : Resource

end

namespace Resource

def TYPE : Resource → Option String
  | .mk t _ _ _ _ _ _ => t

def EDITABLE : Resource → Option (List String)
  | .mk _ e _ _ _ _ _ => e

def id : Resource → Option String
  | .mk _ _ i _ _ _ _ => i

def attributes : Resource → List (String × JsonValue)
  | .mk _ _ _ a _ _ _ => a

def relationships : Resource → List (String × RelDescriptor)
  | .mk _ _ _ _ r _ _ => r

def related : Resource → List (String × RelatedValue)
  | .mk _ _ _ _ _ r _ => r

def links : Resource → List (String × String)
  | .mk _ _ _ _ _ _ l => l

/-- `self.r[name] = v` (assignment into the `related` cache). -/
def setRelated (self : Resource) (name : String) (v : RelatedValue) :
    Resource :=
  match self with
  | .mk t e i a r rel l => .mk t e i a r (ainsert rel name v) l

/-- `Resource.as_resource_identifier`: the dict with the class `TYPE` and the
instance `id`. -/
def as_resource_identifier (self : Resource) : ResourceIdentifier :=
  ⟨self.TYPE, self.id⟩

/-- `Resource.as_relationship`: the singular relationship envelope
wrapping the resource identifier under a `data` key. -/
def as_relationship (self : Resource) : RelDict :=
  ⟨some self.as_resource_identifier, none⟩

/-- `Resource._get_url`: the `self` link when present, else the
`/TYPE/id` convention (f-string semantics: `None` renders as `"None"`). -/
def _get_url (self : Resource) : String :=
  match alookup self.links "self" with
  | some u => u
  | none => "/" ++ pyStr self.TYPE ++ "/" ++ pyStr self.id

end Resource

/-- A resource class as the instance sees it: the `TYPE` and `EDITABLE`
class attributes declared by a `Resource` subclass.  The base `Resource`
class is `⟨none, none⟩`. -/
structure ResourceClass where
  TYPE : Option String
  EDITABLE : Option (List String)
deriving Repr, DecidableEq

/-- The base `Resource` class (`TYPE = None`, `EDITABLE = None`). -/
def baseClass : ResourceClass := ⟨none, none⟩

/-- The process-wide class registry filled by `_JsonApiMeta.__new__`:
maps a non-null `TYPE` string to the class registered for it. -/
abbrev Registry := List (String × ResourceClass)

/-- `_jsonapi_global.registry.get(type, Resource)`: the registered class for
a type name, falling back to the base class (also when the name is `None`,
which is never a registry key). -/
def resolveClass (registry : Registry) (t : Option String) : ResourceClass :=
  match t with
  | some s => ((registry.find? (fun p => p.1 == s)).map (fun p => p.2)).getD baseClass
  | none => baseClass

/-- A value appearing in a `relationships` mapping handed to `_overwrite`:
either a raw relationship descriptor or a full `Resource` instance (which
`_overwrite` re-encodes via `as_relationship`). -/
inductive RelInput where
  | descriptor (d : RelDescriptor) : RelInput
  | resource (r : Resource) : RelInput

/-- A wire resource object (the keyword arguments accepted by
`Resource.__init__`/`_overwrite` apart from `included`): `none` models an
absent key or an explicit `None` value, which `_overwrite` treats alike. -/
structure ResourceObject where
  type : Option String
  id : Option String
  attributes : Option (List (String × JsonValue))
  relationships : Option (List (String × RelInput))
  links : Option (List (String × String))
  related : Option (List (String × RelatedValue))

/-- The empty resource object (every keyword absent). -/
def ResourceObject.empty : ResourceObject := ⟨none, none, none, none, none, none⟩

/-- A `_overwrite` argument bundle: a resource object plus the optional
`included` side-load list (a list of resource objects). -/
structure Payload where
  obj : ResourceObject
  included : Option (List ResourceObject)

namespace Resource

/-- The `relationships` decoding loop of `_overwrite`: a `Resource` value is
stored as its `as_relationship()` encoding, a raw descriptor is stored
unchanged. -/
def decodeRels (rels : Option (List (String × RelInput))) :
    List (String × RelDescriptor) :=
  (rels.getD []).map (fun p =>
    match p.2 with
    | .descriptor d => (p.1, d)
    | .resource r => (p.1, some r.as_relationship))

/-- `Resource.new(\x7bdata: \x7btype, id\x7d\x7d)` and
`Resource.new(type=..., id=...)`: the registry is consulted with the type
name (`new` consumes the `type` keyword, so the constructed instance gets
the own `TYPE` of the class) and the class is instantiated with only the id,
yielding a bare identifier instance. -/
def new_from_identifier (registry : Registry) (t i : Option String) :
    Resource :=
  let cls := resolveClass registry t
  .mk cls.TYPE cls.EDITABLE i [] [] [] []

/-- The `related`-cache seeding loop of `_overwrite`: a null descriptor
caches `None`, a descriptor with a `data` key caches
`Resource.new(relationship)`, a plural descriptor caches nothing. -/
def seedRelated (registry : Registry)
    (rels : List (String × RelDescriptor)) :
    List (String × RelatedValue) :=
  rels.foldl (fun acc p =>
    match p.2 with
    | none => ainsert acc p.1 .nullv
    | some rd =>
      match rd.data with
      | some ri => ainsert acc p.1 (.res (new_from_identifier registry ri.type ri.id))
      | none => acc) []

/-- The `(type, id)` lookup table built from an `included` list:
a Python dict comprehension, so a later duplicate key wins. -/
def includedLookup (inc : List ResourceObject) (t i : Option String) :
    Option ResourceObject :=
  inc.foldl (fun acc item =>
    if item.type = t ∧ item.id = i then some item else acc) none

/-- `_overwrite` without an `included` list (the `included=None` case):
writes `id`, copies `attributes` and `links`, decodes `relationships`,
seeds `related` from the singular descriptors, then applies the `related`
keyword on top. -/
def overwriteNoInc (registry : Registry)
    (T : Option String) (E : Option (List String)) (o : ResourceObject) :
    Resource :=
  let rels := decodeRels o.relationships
  let rel0 := seedRelated registry rels
  let rel1 :=
    match o.related with
    | none => rel0
    | some rs => aupdate rel0 rs
  .mk T E o.id (o.attributes.getD []) rels rel1 (o.links.getD [])

/-- `Resource.new(**item)` for a resource-object dict (as called on entries
of an `included` list): resolves the class from the `type` field of the dict and
instantiates it with the remaining fields; the `__init__` of the instance sees no
`type` keyword, so no type check fires, and `_overwrite` runs without
`included`. -/
def new_from_object (registry : Registry) (o : ResourceObject) : Resource :=
  let cls := resolveClass registry o.type
  overwriteNoInc registry cls.TYPE cls.EDITABLE o

/-- `Resource._overwrite`: the full version with the optional `included`
list.  The `included` resolution pass runs after `related` is seeded from
the singular descriptors and before the `related` keyword is applied (the
order in the source).  The `type` keyword of `_overwrite` is accepted and
ignored, so the `type` field of a resource object never reaches a check here. -/
def _overwrite (registry : Registry)
    (T : Option String) (E : Option (List String)) (p : Payload) : Resource :=
  let o := p.obj
  let rels := decodeRels o.relationships
  let rel0 := seedRelated registry rels
  let rel1 :=
    match p.included with
    | none => rel0
    | some inc =>
      rels.foldl (fun acc q =>
        match q.2 with
        | none => acc
        | some rd =>
          match rd.data with
          | none => acc
          | some ri =>
            match includedLookup inc ri.type ri.id with
            | some item => ainsert acc q.1 (.res (new_from_object registry item))
            | none => acc) rel0
  let rel2 :=
    match o.related with
    | none => rel1
    | some rs => aupdate rel1 rs
  .mk T E o.id (o.attributes.getD []) rels rel2 (o.links.getD [])

end Resource

/-- The positional `data` argument of `Resource.__init__`: a dict with a
`data` key (a full response envelope, or a relationship descriptor — the
value under `data` is unwrapped once and its keys become `_overwrite`
keywords), or a dict without one (a bare resource object, whose own keys —
an `included` key too, if present — become `_overwrite` keywords). -/
inductive InitArg where
  | env (data : ResourceObject) (included : Option (List ResourceObject)) : InitArg
  | bare (p : Payload) : InitArg

namespace Resource

/-- `Resource.__init__`.  Raises `ValueError` when the explicit `type`
keyword is present and differs from the class `TYPE`.  A passed `data` dict
with a `data` key is unwrapped once — its sibling `included` list is
discarded, since only the unwrapped inner dict reaches `_overwrite`. -/
def init (registry : Registry)
    (T : Option String) (E : Option (List String)) (arg : Option InitArg)
    (kwId : Option String) (kwAttributes : Option (List (String × JsonValue)))
    (kwRelationships : Option (List (String × RelInput)))
    (kwLinks : Option (List (String × String)))
    (kwRelated : Option (List (String × RelatedValue)))
    (kwType : Option String) : Except String Resource :=
  match kwType with
  | some t =>
    if T = some t then
      initBody registry T E arg kwId kwAttributes kwRelationships kwLinks kwRelated
    else .error "ValueError: Invalid type"
  | none =>
    initBody registry T E arg kwId kwAttributes kwRelationships kwLinks kwRelated
where
  initBody (registry : Registry) (T : Option String)
      (E : Option (List String)) (arg : Option InitArg)
      (kwId : Option String)
      (kwAttributes : Option (List (String × JsonValue)))
      (kwRelationships : Option (List (String × RelInput)))
      (kwLinks : Option (List (String × String)))
      (kwRelated : Option (List (String × RelatedValue))) :
      Except String Resource :=
    match arg with
    | some (.env d _inc) => .ok (_overwrite registry T E ⟨d, none⟩)
    | some (.bare p) => .ok (_overwrite registry T E p)
    | none =>
      .ok (_overwrite registry T E
        ⟨⟨none, kwId, kwAttributes, kwRelationships, kwLinks, kwRelated⟩, none⟩)

end Resource

/-- Values handed to `Resource.as_resource` by the call sites the claims
exercise: a `Resource` instance, a raw dict in relationship shape, a raw
resource-identifier dict, or Python `None`. -/
inductive ItemInput where
  | res (r : Resource) : ItemInput
  | rel (rd : RelDict) : ItemInput
  | ident (t i : Option String) : ItemInput
  | pynone : ItemInput

namespace Resource

/-- `Resource.as_resource(data)`: `Resource.new(data)` with every exception
falling back to returning `data` itself.  A `Resource` argument has no
`in`-membership, so `new` raises `TypeError` and the instance comes back
unchanged; a dict with a `data` key is unwrapped to its identifier; an
identifier dict or `None` goes through the registry. -/
def as_resource (registry : Registry) (item : ItemInput) : Resource :=
  match item with
  | .res r => r
  | .rel rd =>
    match rd.data with
    | some ri => new_from_identifier registry ri.type ri.id
    | none => new_from_object registry { ResourceObject.empty with links := rd.links }
  | .ident t i => new_from_identifier registry t i
  | .pynone => new_from_object registry ResourceObject.empty

/-- `Resource.__eq__`: passes the right operand through `as_resource`
and compares the two resource-identifier dicts. -/
def py_eq (registry : Registry) (self : Resource) (other : ItemInput) : Bool :=
  decide (self.as_resource_identifier
    = (as_resource registry other).as_resource_identifier)

end Resource

/-- The fixed names `__getattr__` treats as structural (the shortcuts `a`,
`R`, `r` included), read via ordinary attribute lookup. -/
def getattrFixedNames : List String :=
  ["a", "attributes", "R", "relationships", "r", "related", "id", "links"]

/-- The fixed names `__setattr__` writes as ordinary instance fields. -/
def setattrFixedNames : List String :=
  ["id", "attributes", "relationships", "related", "links"]

/-- The observable outcome of an attribute-style read. -/
inductive GetattrResult where
  | structural : GetattrResult
  | attr (v : JsonValue) : GetattrResult
  | rel (v : RelatedValue) : GetattrResult
  | missing : GetattrResult

/-- The observable outcome of an attribute-style write. -/
inductive SetattrResult where
  | structuralAssign : SetattrResult
  | ordinaryAssign : SetattrResult
  | updated (r : Resource) : SetattrResult
  | storedOpaque : SetattrResult
  | attrError (msg : String) : SetattrResult

/-- A value being written through `__setattr__`: a plain non-mapping JSON
value, or one of the `as_resource`-convertible shapes. -/
inductive SetVal where
  | json (v : JsonValue) : SetVal
  | input (i : ItemInput) : SetVal

namespace Resource

/-- `Resource.__getattr__`: a structural name resolves to the field itself;
otherwise a key of `attributes` reads the attribute, else a key of the
`related` cache reads the cached entry, else the read falls through to
ordinary lookup (an `AttributeError` for a missing member). -/
def py_getattr (self : Resource) (name : String) : GetattrResult :=
  if name ∈ getattrFixedNames then .structural
  else
    match alookup self.attributes name with
    | some v => .attr v
    | none =>
      match alookup self.related name with
      | some v => .rel v
      | none => .missing

/-- The capability error raised on writing a plural relationship.  The
source message also names the concrete class and quotes the name; the
operative content is the redirection to add/remove/reset. -/
def pluralWriteError (name : String) : String :=
  "AttributeError: You can not set the " ++ name ++
    " relationship because it is a plural relationship. Use .add(), .remove() or .reset() instead."

/-- `Resource.__setattr__`: a structural name is written as an ordinary
field; else a key of `attributes` is written into that mapping; else a key
of `relationships` is constrained — a singular descriptor (null or with a
`data` key) is replaced by the encoded form of the `as_resource`-normalized
value with the `related` cache updated (a plain JSON value has no
`as_relationship`, so the write raises `AttributeError`), while a plural
descriptor raises the capability error before looking at the value; any
other name is an ordinary field write. -/
def py_setattr (registry : Registry) (self : Resource) (name : String)
    (value : SetVal) : SetattrResult :=
  if name ∈ setattrFixedNames then .structuralAssign
  else if akey self.attributes name then
    match value with
    | .json v =>
      match self with
      | .mk t e i a r rel l => .updated (.mk t e i (ainsert a name v) r rel l)
    | .input _ => .storedOpaque
  else
    match alookup self.relationships name with
    | some d =>
      if (match d with | none => true | some rd => rd.data.isSome) then
        match value with
        | .json _ => .attrError "AttributeError: as_relationship"
        | .input it =>
          let v := as_resource registry it
          match self with
          | .mk t e i a r rel l =>
            .updated (.mk t e i a (ainsert r name (some v.as_relationship))
              (ainsert rel name (.res v)) l)
      else .attrError (pluralWriteError name)
    | none => .ordinaryAssign

end Resource

/-- A request payload built by `_save_existing`/`_save_new` or a bulk
operation: a resource object carrying only wire fields.  `id = none` models
an absent `id` key or a null value; `attributes`/`relationships` are present
only when the builder put them there (`setdefault`). -/
structure SavePayload where
  type : Option String
  id : Option String
  attributes : Option (List (String × JsonValue))
  relationships : Option (List (String × RelDescriptor))

/-- The attribute names a payload transmits (empty when the `attributes`
key is absent). -/
def payloadAttrKeys (p : SavePayload) : List String :=
  akeys (p.attributes.getD [])

/-- The relationship names a payload transmits. -/
def payloadRelKeys (p : SavePayload) : List String :=
  akeys (p.relationships.getD [])

/-- The JSON body of a request (the value under its `data` key). -/
inductive RequestBody where
  | payloadOne (p : SavePayload) : RequestBody
  | ident1 (i : ResourceIdentifier) : RequestBody
  | identList (l : List ResourceIdentifier) : RequestBody
  | payloadList (l : List SavePayload) : RequestBody

/-- Modelled from the spec: `requests.py` is not under `src/`.  Per the
Transport collaborator contract (§6), `_jsonapi_request` executes one
method/URL/body request (with optional query params and a bulk profile
marker) and returns the parsed JSON body. -/
structure Request where
  method : String
  url : String
  body : Option RequestBody
  params : Option (List (String × String))
  bulk : Bool

/-- A parsed response body: the primary `data` resource object and the
optional sibling `included` list. -/
structure ResponseBody where
  data : ResourceObject
  included : Option (List ResourceObject)

/-- Modelled from the spec: the Transport collaborator.  An oracle gives the
parsed body the server would return for each request; the operations below
record the list of requests they issue through it. -/
abbrev Oracle := Request → ResponseBody

/-- Python truthiness of the optional string `self.id` (`if self.id:`). -/
def pyTruthy (s : Option String) : Bool :=
  match s with
  | some v => !(v == "")
  | none => false

/-- Modelled from the spec: a Queryset performs exactly one `get` request on
its anchoring URL at first access and caches the page; later accesses issue
nothing. -/
def Queryset.ensure_fetched (q : Queryset) : Queryset × List Request :=
  if q.fetched then (q, [])
  else
    match q.url with
    | some u => (⟨q.url, true⟩, [⟨"get", u, none, none, false⟩])
    | none => (q, [])

namespace Resource

/-- `Resource.reload` (with the default `include=None`): one `get` request
on the item URL, then `_overwrite` with the `data` fields of the response and its
sibling `included` list. -/
def reload (registry : Registry) (oracle : Oracle) (self : Resource) :
    Resource × List Request :=
  let req : Request := ⟨"get", self._get_url, none, none, false⟩
  let body := oracle req
  (_overwrite registry self.TYPE self.EDITABLE ⟨body.data, body.included⟩, [req])

/-- The `is_singular_fetched or is_plural_fetched` test of `fetch`:
a cached related `Resource` counts as resolved when it carries any
attributes or any relationships; a cached `Queryset` always counts. -/
def relResolved (self : Resource) (name : String) : Bool :=
  match alookup self.related name with
  | some (.res r) => !r.attributes.isEmpty || !r.relationships.isEmpty
  | some (.qs _) => true
  | _ => false

/-- The body of the `fetch` loop for one relationship name. -/
def fetch_one (registry : Registry) (oracle : Oracle) (self : Resource)
    (name : String) (force : Bool) : Except String (Resource × List Request) :=
  match alookup self.relationships name with
  | none =>
    .error ("ValueError: resource does not have relationship " ++ name)
  | some none => .ok (self, [])
  | some (some rd) =>
    if self.relResolved name && !force then .ok (self, [])
    else if rd.data.isSome then
      match alookup self.related name with
      | some (.res r) =>
        let (r2, reqs) := reload registry oracle r
        .ok (self.setRelated name (.res r2), reqs)
      | some .nullv => .error "AttributeError: NoneType object has no attribute reload"
      | some (.qs _) => .error "AttributeError: Queryset object has no attribute reload"
      | none => .error ("KeyError: " ++ name)
    else
      match rd.links with
      | some ls =>
        match alookup ls "related" with
        | some url => .ok (self.setRelated name (.qs (Queryset.ofUrl url)), [])
        | none => .error "KeyError: related"
      | none => .error "KeyError: links"

/-- `Resource.fetch(*names, force=...)`: the per-name loop, threading the
instance state and concatenating the issued requests. -/
def fetch (registry : Registry) (oracle : Oracle) :
    Resource → List String → Bool → Except String (Resource × List Request)
  | self, [], _ => .ok (self, [])
  | self, n :: rest, force =>
    match fetch_one registry oracle self n force with
    | .error e => .error e
    | .ok (r, reqs) =>
      match fetch registry oracle r rest force with
      | .error e => .error e
      | .ok (r2, reqs2) => .ok (r2, reqs ++ reqs2)

/-- `fields or self.EDITABLE` in `_save_existing`: the explicit field list
when non-empty, else the class `EDITABLE` list (possibly absent). -/
def chosenFields (self : Resource) (fields : List String) :
    Option (List String) :=
  if fields.isEmpty then self.EDITABLE else some fields

/-- One iteration of the field-copying loop of `_save_existing`: an
attribute key is copied into the `attributes` of the payload (created by
`setdefault` on first use), else a relationship key into `relationships`,
else the field is skipped. -/
def _save_existing_step (self : Resource) (p : SavePayload) (f : String) :
    SavePayload :=
  match alookup self.attributes f with
  | some v => { p with attributes := some (ainsert (p.attributes.getD []) f v) }
  | none =>
    match alookup self.relationships f with
    | some d => { p with relationships := some (ainsert (p.relationships.getD []) f d) }
    | none => p

/-- The payload built by `_save_existing`: the resource identifier, then
either the chosen fields copied one by one (an attribute key wins over a
relationship key; a name that is neither is skipped), or — when no field
list applies — the whole `attributes` and `relationships` mappings when
non-empty. -/
def _save_existing_payload (self : Resource) (fields : List String) :
    SavePayload :=
  let base : SavePayload := ⟨self.TYPE, self.id, none, none⟩
  match chosenFields self fields with
  | some fs => fs.foldl (_save_existing_step self) base
  | none =>
    { base with
      attributes := if self.attributes.isEmpty then none else some self.attributes
      relationships := if self.relationships.isEmpty then none else some self.relationships }

/-- `Resource._save_existing`: one `patch` request on the item URL with the
partial payload. -/
def _save_existing (oracle : Oracle) (self : Resource) (fields : List String) :
    ResponseBody × List Request :=
  let req : Request :=
    ⟨"patch", self._get_url, some (.payloadOne (_save_existing_payload self fields)), none, false⟩
  (oracle req, [req])

/-- `Resource._save_new`: one `post` request on the collection URL with the
full payload (no `id`). -/
def _save_new (oracle : Oracle) (self : Resource) :
    ResponseBody × List Request :=
  let p : SavePayload :=
    ⟨self.TYPE, none,
      (if self.attributes.isEmpty then none else some self.attributes),
      (if self.relationships.isEmpty then none else some self.relationships)⟩
  let req : Request := ⟨"post", "/" ++ pyStr self.TYPE, some (.payloadOne p), none, false⟩
  (oracle req, [req])

/-- The `related`-cache reconciliation in `save`: plural caches (Querysets)
are kept untouched; a singular cache whose identifier differs from the one
in the response is replaced by a fresh unresolved `Resource` when the new id
is non-null and dropped when it is null.  Failing lookups on either side
(a cached `None`, a missing or null descriptor in the response) read as a
null id, as the `try/except` blocks of the source do. -/
def reconcileRelated (registry : Registry)
    (related : List (String × RelatedValue)) (data : ResourceObject) :
    List (String × RelatedValue) :=
  related.foldl (fun acc p =>
    match p.2 with
    | .qs _ => acc
    | ri =>
      let currentId : Option String :=
        match ri with
        | .res r => r.id
        | _ => none
      let respDescriptor : Option RelDict :=
        match (data.relationships.getD []).find? (fun q => q.1 == p.1) with
        | some (_, .descriptor (some rd)) => some rd
        | _ => none
      let newId : Option String := respDescriptor.bind (fun rd => rd.data.bind (fun d => d.id))
      if currentId = newId then acc
      else
        match newId with
        | some _ =>
          ainsert acc p.1 (.res
            (match respDescriptor.bind (fun rd => rd.data) with
             | some d => new_from_identifier registry d.type d.id
             | none => new_from_identifier registry none none))
        | none => aerase acc p.1) related

/-- `Resource.save(*fields)`: create or partially update depending on the
truthiness of `id`, then reconcile the cached `related` map against the
response and `_overwrite` the instance with the `data` fields of the response
plus the reconciled cache. -/
def save (registry : Registry) (oracle : Oracle) (self : Resource)
    (fields : List String) : Resource × List Request :=
  let (body, reqs) :=
    if pyTruthy self.id then _save_existing oracle self fields
    else _save_new oracle self
  let data := body.data
  let related2 := reconcileRelated registry self.related data
  (_overwrite registry self.TYPE self.EDITABLE
    ⟨{ data with related := some related2 }, none⟩, reqs)

/-- `Resource._edit_relationship`: one request on the own
`self` link of the relationship with the given body. -/
def _edit_relationship (self : Resource) (method : String) (field : String)
    (value : RequestBody) : Except String (List Request) :=
  match alookup self.relationships field with
  | some (some rd) =>
    match rd.links with
    | some ls =>
      match alookup ls "self" with
      | some url => .ok [⟨method, url, some value, none, false⟩]
      | none => .error "KeyError: self"
    | none => .error "KeyError: links"
  | some none => .error "TypeError: NoneType object is not subscriptable"
  | none => .error ("KeyError: " ++ field)

/-- `Resource._edit_plural_relationship`: normalizes every item to a
resource identifier and sends the list to the `self` link of the relationship.
The instance itself is returned unchanged: the source never touches the
`related` cache here. -/
def _edit_plural_relationship (registry : Registry) (self : Resource)
    (method : String) (field : String) (values : List ItemInput) :
    Except String (Resource × List Request) :=
  let payload := values.map (fun it => (as_resource registry it).as_resource_identifier)
  match _edit_relationship self method field (.identList payload) with
  | .ok reqs => .ok (self, reqs)
  | .error e => .error e

/-- `Resource.add`. -/
def add (registry : Registry) (self : Resource) (field : String)
    (values : List ItemInput) : Except String (Resource × List Request) :=
  _edit_plural_relationship registry self "post" field values

/-- `Resource.remove`. -/
def remove (registry : Registry) (self : Resource) (field : String)
    (values : List ItemInput) : Except String (Resource × List Request) :=
  _edit_plural_relationship registry self "delete" field values

/-- `Resource.reset`. -/
def reset (registry : Registry) (self : Resource) (field : String)
    (values : List ItemInput) : Except String (Resource × List Request) :=
  _edit_plural_relationship registry self "patch" field values

end Resource

/-- An input item of a bulk operation: a `Resource`, a mapping (read with
`item.get(key, None)`), a tuple of arity three or two, a one-element tuple,
or a non-iterable scalar (a number — Python strings are iterable and are
not covered by this constructor). -/
inductive BulkItem where
  | res (r : Resource) : BulkItem
  | dict (attributes : Option (List (String × JsonValue)))
      (relationships : Option (List (String × ItemInput)))
      (id : Option String) : BulkItem
  | tup3 (attributes : Option (List (String × JsonValue)))
      (relationships : Option (List (String × ItemInput)))
      (id : Option String) : BulkItem
  | tup2 (attributes : Option (List (String × JsonValue)))
      (relationships : Option (List (String × ItemInput))) : BulkItem
  | tup1 (x : List (String × JsonValue)) : BulkItem
  | scalar (n : Int) : BulkItem

/-- The normalized `(attributes, relationships, id)` triple produced by
`_extract_from_item`.  The relationship descriptors of a `Resource` are injected
into the `ItemInput` shapes the bulk payload builders consume. -/
abbrev ExtractTriple :=
  Option (List (String × JsonValue)) × Option (List (String × ItemInput)) × Option String

namespace Resource

/-- The `relationships` map of a `Resource`, as `as_resource` input values
(a raw descriptor dict, or `None` for a null descriptor). -/
def relsAsInputs (rels : List (String × RelDescriptor)) :
    List (String × ItemInput) :=
  rels.map (fun p =>
    match p.2 with
    | some rd => (p.1, ItemInput.rel rd)
    | none => (p.1, ItemInput.pynone))

/-- `Resource._extract_from_item`.  A `Resource` yields its own fields; a
mapping yields its three `get`s; a 3- or 2-tuple unpacks positionally.  A
one-element tuple fails both tuple unpackings with `ValueError` and reaches
the final fallback, whose statement `relationships, id = None` unpacks
`None` and raises `TypeError`; a non-iterable scalar already raises
`TypeError` at the first tuple unpacking, which the `except ValueError`
clauses do not catch. -/
def _extract_from_item (item : BulkItem) : Except String ExtractTriple :=
  match item with
  | .res r => .ok (some r.attributes, some (relsAsInputs r.relationships), r.id)
  | .dict a rels i => .ok (a, rels, i)
  | .tup3 a rels i => .ok (a, rels, i)
  | .tup2 a rels => .ok (a, rels, none)
  | .tup1 _ => .error "TypeError: can not unpack non-iterable NoneType object"
  | .scalar _ => .error "TypeError: can not unpack non-iterable object"

/-- The payload-building loop of `bulk_create`: extract each item in order,
reject any non-null id, and append one resource object per item with the
relationship values re-encoded through `as_resource`. -/
def bulk_create_payload (registry : Registry) (cls : ResourceClass) :
    List BulkItem → Except String (List SavePayload)
  | [] => .ok []
  | item :: rest =>
    match _extract_from_item item with
    | .error e => .error e
    | .ok (a, rels, i) =>
      if i.isSome then
        .error "ValueError: id supplied as part of a new instance"
      else
        match bulk_create_payload registry cls rest with
        | .error e => .error e
        | .ok tail =>
          .ok (⟨cls.TYPE, none, a,
            rels.map (fun rs => rs.map (fun p =>
              (p.1, some (as_resource registry p.2).as_relationship)))⟩ :: tail)

/-- `Resource.bulk_create`: extract every item, reject any non-null id,
build one bulk `post` on the collection URL, and wrap the response body into
an already-fetched Queryset with no extra request. -/
def bulk_create (registry : Registry) (oracle : Oracle) (cls : ResourceClass)
    (items : List BulkItem) : Except String (Queryset × List Request) :=
  match bulk_create_payload registry cls items with
  | .error e => .error e
  | .ok payload =>
    let req : Request :=
      ⟨"post", "/" ++ pyStr cls.TYPE, some (.payloadList payload), none, true⟩
    let _body := oracle req
    .ok (Queryset.from_data, [req])

/-- The payload-building loop of `bulk_update`: each item must carry an id;
a truthy field filter restricts both mappings; falsy (empty or absent)
mappings are omitted from the entry. -/
def bulk_update_payload (registry : Registry) (cls : ResourceClass)
    (fields : Option (List String)) :
    List BulkItem → Except String (List SavePayload)
  | [] => .ok []
  | item :: rest =>
    match _extract_from_item item with
    | .error e => .error e
    | .ok (a, rels, i) =>
      match i with
      | none => .error "ValueError: id not supplied as part of an update operation"
      | some iv =>
        let filterOn : Bool :=
          match fields with
          | some fs => !fs.isEmpty
          | none => false
        let a2 := if filterOn then
            a.map (fun m => m.filter (fun p => p.1 ∈ fields.getD []))
          else a
        let rels2 := if filterOn then
            rels.map (fun m => m.filter (fun p => p.1 ∈ fields.getD []))
          else rels
        match bulk_update_payload registry cls fields rest with
        | .error e => .error e
        | .ok tail =>
          .ok (⟨cls.TYPE, some iv,
            (if (a2.getD []).isEmpty then none else a2),
            (if (rels2.getD []).isEmpty then none
             else rels2.map (fun rs => rs.map (fun p =>
               (p.1, some (as_resource registry p.2).as_relationship))))⟩ :: tail)

/-- `Resource.bulk_update`: like `bulk_create` but every item must carry an
id, the field filter (explicit or `EDITABLE`, when truthy) restricts both
mappings, empty mappings are omitted, and the request is a bulk `patch`. -/
def bulk_update (registry : Registry) (oracle : Oracle) (cls : ResourceClass)
    (items : List BulkItem) (fieldsArg : Option (List String)) :
    Except String (Queryset × List Request) :=
  let fields : Option (List String) :=
    match fieldsArg with
    | some fs => some fs
    | none => cls.EDITABLE
  match bulk_update_payload registry cls fields items with
  | .error e => .error e
  | .ok payload =>
    let req : Request :=
      ⟨"patch", "/" ++ pyStr cls.TYPE, some (.payloadList payload), none, true⟩
    let _body := oracle req
    .ok (Queryset.from_data, [req])

end Resource

/-! Association-list lemmas used by the proofs below. -/

theorem alookup_cons {α : Type} (p : String × α) (t : List (String × α))
    (k : String) :
    alookup (p :: t) k = if p.1 == k then some p.2 else alookup t k := by
  cases hb : p.1 == k <;> simp [alookup, List.find?_cons, hb]

theorem akey_cons {α : Type} (p : String × α) (t : List (String × α))
    (k : String) : akey (p :: t) k = ((p.1 == k) || akey t k) := by
  cases hb : p.1 == k <;> simp [akey, List.find?_cons, hb]

theorem akey_true_iff {α : Type} (m : List (String × α)) (k : String) :
    akey m k = true ↔ k ∈ akeys m := by
  induction m with
  | nil => simp [akey, akeys]
  | cons hd tl ih =>
    rw [akey_cons]
    cases hb : hd.1 == k
    · simp only [Bool.false_or]
      rw [ih]
      have : hd.1 ≠ k := by simpa using hb
      simp [akeys, this, Ne.symm this]
    · have : hd.1 = k := by simpa using hb
      simp [akeys, this]

theorem akey_false_iff {α : Type} (m : List (String × α)) (k : String) :
    akey m k = false ↔ k ∉ akeys m := by
  rw [← akey_true_iff]
  cases h : akey m k <;> simp [h]

theorem alookup_eq_none_of_akey_false {α : Type} (m : List (String × α))
    (k : String) (h : akey m k = false) : alookup m k = none := by
  unfold akey at h
  unfold alookup
  rcases hf : m.find? (fun p => p.1 == k) with _ | p
  · rw [hf]; rfl
  · rw [hf] at h; simp at h

theorem alookup_ainsert_self {α : Type} (m : List (String × α)) (k : String)
    (v : α) : alookup (ainsert m k v) k = some v := by
  induction m with
  | nil => simp [ainsert, alookup]
  | cons hd tl ih =>
    cases hb : hd.1 == k
    · simpa [ainsert, hb, alookup_cons] using ih
    · simp [ainsert, hb, alookup_cons]

theorem alookup_ainsert_ne {α : Type} (m : List (String × α)) (k k2 : String)
    (v : α) (h : k ≠ k2) : alookup (ainsert m k v) k2 = alookup m k2 := by
  induction m with
  | nil =>
    have hb : (k == k2) = false := by simpa using h
    simp [ainsert, alookup, hb]
  | cons hd tl ih =>
    cases hb : hd.1 == k
    · simp only [ainsert, hb, if_neg Bool.false_ne_true]
      rw [alookup_cons, alookup_cons]
      cases hb2 : hd.1 == k2 <;> simp [ih]
    · have h1 : hd.1 = k := by simpa using hb
      have hb2 : (hd.1 == k2) = false := by simpa [h1] using h
      have hb3 : (k == k2) = false := by simpa using h
      simp [ainsert, hb, alookup_cons, hb2, hb3]

theorem akeys_ainsert_of_not_key {α : Type} (m : List (String × α))
    (k : String) (v : α) (h : akey m k = false) :
    akeys (ainsert m k v) = akeys m ++ [k] := by
  induction m with
  | nil => simp [ainsert, akeys]
  | cons hd tl ih =>
    rw [akey_cons] at h
    have hb : (hd.1 == k) = false := by
      cases hb : hd.1 == k <;> simp [hb] at h ⊢
    have h2 : akey tl k = false := by
      cases h2 : akey tl k <;> simp [hb, h2] at h ⊢
    simp [ainsert, hb, akeys] at ih ⊢
    exact ih h2

/-- A fold whose step never touches keys other than the own key of the pair leaves
foreign lookups unchanged. -/
theorem alookup_foldl_not_mem {β γ : Type}
    (g : List (String × γ) → (String × β) → List (String × γ))
    (hg : ∀ acc p n, p.1 ≠ n → alookup (g acc p) n = alookup acc n)
    (l : List (String × β)) (acc : List (String × γ)) (name : String)
    (h : name ∉ akeys l) :
    alookup (l.foldl g acc) name = alookup acc name := by
  induction l generalizing acc with
  | nil => rfl
  | cons hd tl ih =>
    have h1 : hd.1 ≠ name := by
      intro he; exact h (by simp [akeys, he])
    have h2 : name ∉ akeys tl := by
      intro he
      apply h
      simp [akeys] at he ⊢
      exact Or.inr he
    rw [List.foldl_cons, ih (g acc hd) h2, hg acc hd name h1]

/-- With distinct keys, the effect of a fold at `name` is exactly the effect of the step on the unique pair keyed `name`. -/
theorem alookup_foldl_nodup {β γ : Type}
    (g : List (String × γ) → (String × β) → List (String × γ))
    (hg : ∀ acc p n, p.1 ≠ n → alookup (g acc p) n = alookup acc n)
    (l : List (String × β)) (name : String) (b : β) (w : Option γ)
    (hset : ∀ acc2, alookup (g acc2 (name, b)) name = w) :
    ∀ acc, (akeys l).Nodup → alookup l name = some b →
      alookup (l.foldl g acc) name = w := by
  induction l with
  | nil => intro acc _ hl; simp [alookup] at hl
  | cons hd tl ih =>
    intro acc hnd hl
    have hkeys : akeys (hd :: tl) = hd.1 :: akeys tl := rfl
    rw [hkeys] at hnd
    by_cases h1 : hd.1 = name
    · have hb : (hd.1 == name) = true := by simpa using h1
      have h2 : hd.2 = b := by
        have := hl
        rw [alookup_cons, hb] at this
        simpa using this
      have hhd : hd = (name, b) := by
        obtain ⟨k0, v0⟩ := hd
        simp at h1 h2
        simp [h1, h2]
      have hnm : name ∉ akeys tl := by
        rw [← h1]
        exact (List.nodup_cons.mp hnd).1
      rw [List.foldl_cons, hhd,
        alookup_foldl_not_mem g hg tl (g acc (name, b)) name hnm, hset]
    · have hb : (hd.1 == name) = false := by simpa using h1
      have hl2 : alookup tl name = some b := by
        have := hl
        rwa [alookup_cons, hb] at this
      have hnd2 : (akeys tl).Nodup := (List.nodup_cons.mp hnd).2
      rw [List.foldl_cons]
      exact ih (g acc hd) hnd2 hl2

theorem akey_eq_isSome_alookup {α : Type} (m : List (String × α))
    (k : String) : akey m k = (alookup m k).isSome := by
  unfold akey alookup
  cases m.find? (fun p => p.1 == k) <;> rfl

/-- The field-copying loop of `_save_existing` never touches the `type` and `id` of the payload. -/
theorem save_fold_type_id (self : Resource) (fs : List String)
    (p0 : SavePayload) :
    (fs.foldl (Resource._save_existing_step self) p0).type = p0.type ∧
    (fs.foldl (Resource._save_existing_step self) p0).id = p0.id := by
  induction fs generalizing p0 with
  | nil => exact ⟨rfl, rfl⟩
  | cons f fs ih =>
    rw [List.foldl_cons]
    have hstep : (Resource._save_existing_step self p0 f).type = p0.type ∧
        (Resource._save_existing_step self p0 f).id = p0.id := by
      unfold Resource._save_existing_step
      rcases alookup self.attributes f with _ | v
      · rcases alookup self.relationships f with _ | d
        · exact ⟨rfl, rfl⟩
        · exact ⟨rfl, rfl⟩
      · exact ⟨rfl, rfl⟩
    have htail := ih (Resource._save_existing_step self p0 f)
    exact ⟨htail.1.trans hstep.1, htail.2.trans hstep.2⟩

/-- The field-copying loop of `_save_existing` transmits exactly the fields
of the chosen list that are currently set, attributes taking priority over
relationships, in list order. -/
theorem save_fold_keys (self : Resource) :
    ∀ (fs : List String) (p0 : SavePayload), fs.Nodup →
      (∀ f ∈ fs, f ∉ payloadAttrKeys p0 ∧ f ∉ payloadRelKeys p0) →
      payloadAttrKeys (fs.foldl (Resource._save_existing_step self) p0)
          = payloadAttrKeys p0
            ++ fs.filter (fun f => akey self.attributes f) ∧
      payloadRelKeys (fs.foldl (Resource._save_existing_step self) p0)
          = payloadRelKeys p0
            ++ fs.filter (fun f =>
              !(akey self.attributes f) && akey self.relationships f) := by
  intro fs
  induction fs with
  | nil => intro p0 _ _; simp
  | cons f fs ih =>
    intro p0 hnd hmem
    have hf := hmem f (List.mem_cons_self f fs)
    rw [List.foldl_cons]
    rcases ha : alookup self.attributes f with _ | v
    · have hA : akey self.attributes f = false := by
        rw [akey_eq_isSome_alookup, ha]; rfl
      rcases hr : alookup self.relationships f with _ | d
      · have hR : akey self.relationships f = false := by
          rw [akey_eq_isSome_alookup, hr]; rfl
        have hstep : Resource._save_existing_step self p0 f = p0 := by
          unfold Resource._save_existing_step; rw [ha, hr]
        rw [hstep]
        have hrec := ih p0 (List.nodup_cons.mp hnd).2
          (fun g hg => hmem g (List.mem_cons_of_mem f hg))
        constructor
        · rw [hrec.1]; simp [hA]
        · rw [hrec.2]; simp [hA, hR]
      · have hR : akey self.relationships f = true := by
          rw [akey_eq_isSome_alookup, hr]; rfl
        have hstep : Resource._save_existing_step self p0 f = { p0 with relationships := some (ainsert (p0.relationships.getD []) f d) } := by
          unfold Resource._save_existing_step; rw [ha, hr]
        have hnotkey : akey (p0.relationships.getD []) f = false :=
          (akey_false_iff _ _).mpr hf.2
        have hkeysA : payloadAttrKeys { p0 with relationships := some (ainsert (p0.relationships.getD []) f d) } = payloadAttrKeys p0 := rfl
        have hkeysR : payloadRelKeys { p0 with relationships := some (ainsert (p0.relationships.getD []) f d) } = payloadRelKeys p0 ++ [f] := by
          unfold payloadRelKeys
          exact akeys_ainsert_of_not_key _ _ _ hnotkey
        have hmem1 : ∀ g ∈ fs,
            g ∉ payloadAttrKeys { p0 with relationships := some (ainsert (p0.relationships.getD []) f d) } ∧
            g ∉ payloadRelKeys { p0 with relationships := some (ainsert (p0.relationships.getD []) f d) } := by
          intro g hg
          have hgm := hmem g (List.mem_cons_of_mem f hg)
          have hgf : g ≠ f := by
            intro he
            exact (List.nodup_cons.mp hnd).1 (he ▸ hg)
          refine ⟨by rw [hkeysA]; exact hgm.1, ?_⟩
          rw [hkeysR]
          simp [hgm.2, hgf]
        have hrec := ih _ (List.nodup_cons.mp hnd).2 hmem1
        rw [hstep]
        constructor
        · rw [hrec.1, hkeysA]; simp [hA]
        · rw [hrec.2, hkeysR]; simp [hA, hR, List.append_assoc]
    · have hA : akey self.attributes f = true := by
        rw [akey_eq_isSome_alookup, ha]; rfl
      have hstep : Resource._save_existing_step self p0 f = { p0 with attributes := some (ainsert (p0.attributes.getD []) f v) } := by
        unfold Resource._save_existing_step; rw [ha]
      have hnotkey : akey (p0.attributes.getD []) f = false :=
        (akey_false_iff _ _).mpr hf.1
      have hkeysA : payloadAttrKeys { p0 with attributes := some (ainsert (p0.attributes.getD []) f v) } = payloadAttrKeys p0 ++ [f] := by
        unfold payloadAttrKeys
        exact akeys_ainsert_of_not_key _ _ _ hnotkey
      have hkeysR : payloadRelKeys { p0 with attributes := some (ainsert (p0.attributes.getD []) f v) } = payloadRelKeys p0 := rfl
      have hmem1 : ∀ g ∈ fs,
          g ∉ payloadAttrKeys { p0 with attributes := some (ainsert (p0.attributes.getD []) f v) } ∧
          g ∉ payloadRelKeys { p0 with attributes := some (ainsert (p0.attributes.getD []) f v) } := by
        intro g hg
        have hgm := hmem g (List.mem_cons_of_mem f hg)
        have hgf : g ≠ f := by
          intro he
          exact (List.nodup_cons.mp hnd).1 (he ▸ hg)
        refine ⟨?_, by rw [hkeysR]; exact hgm.2⟩
        rw [hkeysA]
        simp [hgm.1, hgf]
      have hrec := ih _ (List.nodup_cons.mp hnd).2 hmem1
      rw [hstep]
      constructor
      · rw [hrec.1, hkeysA]; simp [hA, List.append_assoc]
      · rw [hrec.2, hkeysR]; simp [hA]

/-! The claims. -/

/-- C1 counterexample: construction from a full envelope carrying an
`included` list does not resolve it — `__init__` unwraps the `data` key and
drops the sibling `included`, so the singular `parent` entry of the related
cache is the bare seeded identifier instance with empty attributes, not a
`Resource` built from the matching included object (whose attributes are
non-empty, as the second conjunct shows). -/
theorem C1_counterexample :
    Resource.init [("parents", ⟨some "parents", none⟩)] (some "children") none
      (some (.env
        ⟨some "children", some "1", none,
          some [("parent", .descriptor
            (some ⟨some ⟨some "parents", some "1"⟩, none⟩))],
          none, none⟩
        (some [⟨some "parents", some "1", some [("name", .str "p")],
          none, none, none⟩])))
      none none none none none none
      = .ok (.mk (some "children") none (some "1") []
          [("parent", some ⟨some ⟨some "parents", some "1"⟩, none⟩)]
          [("parent", .res (.mk (some "parents") none (some "1") [] [] [] []))]
          []) ∧
    (Resource.new_from_object [("parents", ⟨some "parents", none⟩)]
        ⟨some "parents", some "1", some [("name", .str "p")],
          none, none, none⟩).attributes
      = [("name", .str "p")] := by
  exact ⟨rfl, rfl⟩

/-- C1 amended: only payloads received through `reload` resolve a sibling
`included` list (construction from an envelope discards it).  For a reload
whose response carries `included`, every singular relationship whose `data`
identifier matches an included object by `(type, id)` gets its related
cache entry set to the `Resource` built from that included object, and the
reload issues exactly its single `get` request — no additional request is
made for the resolution. -/
theorem C1_reload_included_resolution (registry : Registry) (oracle : Oracle)
    (self : Resource) (body : ResponseBody) (inc : List ResourceObject)
    (name : String) (rd : RelDict) (ri : ResourceIdentifier)
    (item : ResourceObject)
    (hresp : oracle ⟨"get", self._get_url, none, none, false⟩ = body)
    (hinc : body.included = some inc)
    (hnd : (akeys (Resource.decodeRels body.data.relationships)).Nodup)
    (hrel : alookup (Resource.decodeRels body.data.relationships) name
      = some (some rd))
    (hdata : rd.data = some ri)
    (hmatch : Resource.includedLookup inc ri.type ri.id = some item)
    (hnorel : body.data.related = none) :
    (Resource.reload registry oracle self).2
        = [⟨"get", self._get_url, none, none, false⟩] ∧
    alookup (Resource.reload registry oracle self).1.related name
      = some (.res (Resource.new_from_object registry item)) := by
  constructor
  · rfl
  · have hred : (Resource.reload registry oracle self).1
        = Resource._overwrite registry self.TYPE self.EDITABLE
            ⟨body.data, body.included⟩ := by
      dsimp only [Resource.reload]
      rw [hresp]
    rw [hred]
    unfold Resource._overwrite
    simp only [hinc, hnorel, Resource.related]
    refine alookup_foldl_nodup _ ?_ _ name (some rd) _ ?_ _ hnd hrel
    · intro acc p n hne
      obtain ⟨k, d⟩ := p
      simp only at hne
      cases d with
      | none => rfl
      | some rd2 =>
        cases hd2 : rd2.data with
        | none => simp [hd2]
        | some ri2 =>
          simp only [hd2]
          cases hm2 : Resource.includedLookup inc ri2.type ri2.id with
          | none => rfl
          | some item2 => exact alookup_ainsert_ne _ _ _ _ hne
    · intro acc2
      simp [hdata, hmatch, alookup_ainsert_self]

/-- C1 witness. -/
theorem C1_reload_included_resolution_witness :
    (Resource.reload [("parents", ⟨some "parents", none⟩)]
      (fun _ => ⟨⟨some "children", some "1", none,
          some [("parent", .descriptor
            (some ⟨some ⟨some "parents", some "1"⟩, none⟩))],
          none, none⟩,
        some [⟨some "parents", some "1", some [("name", .str "p")],
          none, none, none⟩]⟩)
      (.mk (some "children") none (some "1") [] [] [] [])).2
      = [⟨"get", "/children/1", none, none, false⟩] ∧
    alookup (Resource.reload [("parents", ⟨some "parents", none⟩)]
      (fun _ => ⟨⟨some "children", some "1", none,
          some [("parent", .descriptor
            (some ⟨some ⟨some "parents", some "1"⟩, none⟩))],
          none, none⟩,
        some [⟨some "parents", some "1", some [("name", .str "p")],
          none, none, none⟩]⟩)
      (.mk (some "children") none (some "1") [] [] [] [])).1.related "parent"
      = some (.res (Resource.new_from_object [("parents", ⟨some "parents", none⟩)]
          ⟨some "parents", some "1", some [("name", .str "p")],
            none, none, none⟩)) := by
  exact C1_reload_included_resolution
    [("parents", ⟨some "parents", none⟩)] _
    (.mk (some "children") none (some "1") [] [] [] [])
    ⟨⟨some "children", some "1", none,
        some [("parent", .descriptor
          (some ⟨some ⟨some "parents", some "1"⟩, none⟩))],
        none, none⟩,
      some [⟨some "parents", some "1", some [("name", .str "p")],
        none, none, none⟩]⟩
    [⟨some "parents", some "1", some [("name", .str "p")], none, none, none⟩]
    "parent" ⟨some ⟨some "parents", some "1"⟩, none⟩
    ⟨some "parents", some "1"⟩
    ⟨some "parents", some "1", some [("name", .str "p")], none, none, none⟩
    rfl rfl (by decide) (by decide) (by decide) rfl rfl

/-- C3 counterexample: fetching an unresolved plural relationship issues no
request at all — `fetch` installs a lazy, unfetched `Queryset` anchored at
the `related` link, so the issued-request list is empty rather than a
single request as the claim states. -/
theorem C3_counterexample :
    Resource.fetch [] (fun _ => ⟨⟨none, none, none, none, none, none⟩, none⟩)
      (.mk (some "parents") none (some "1") []
        [("children", some ⟨none,
          some [("self", "/parents/1/relationships/children"),
                ("related", "/parents/1/children")]⟩)] [] [])
      ["children"] false
      = .ok (.mk (some "parents") none (some "1") []
          [("children", some ⟨none,
            some [("self", "/parents/1/relationships/children"),
                  ("related", "/parents/1/children")]⟩)]
          [("children", .qs ⟨some "/parents/1/children", false⟩)] [],
        []) := by
  rfl

/-- C3 amended: `fetch` issues exactly one request per unresolved singular
name (reloading the cached `Resource`); a plural name issues no request
from `fetch` itself — the cache is replaced by a fresh unfetched `Queryset`
anchored at the `related` link (also under `force`), and the single request
happens at the first access of the Queryset itself; a resolved name without `force`
issues nothing and leaves the instance unchanged; a null descriptor is a
no-op. -/
theorem C3_fetch_request_counts :
    (∀ (registry : Registry) (oracle : Oracle) (self : Resource)
        (name : String) (force : Bool),
      alookup self.relationships name = some none →
      Resource.fetch registry oracle self [name] force = .ok (self, [])) ∧
    (∀ (registry : Registry) (oracle : Oracle) (self : Resource)
        (name : String) (rd : RelDict),
      alookup self.relationships name = some (some rd) →
      self.relResolved name = true →
      Resource.fetch registry oracle self [name] false = .ok (self, [])) ∧
    (∀ (registry : Registry) (oracle : Oracle) (self : Resource)
        (name : String) (rd : RelDict) (r : Resource) (force : Bool),
      alookup self.relationships name = some (some rd) →
      rd.data.isSome = true →
      alookup self.related name = some (.res r) →
      (self.relResolved name = false ∨ force = true) →
      Resource.fetch registry oracle self [name] force
          = .ok (self.setRelated name
              (.res (Resource.reload registry oracle r).1),
            (Resource.reload registry oracle r).2) ∧
        (Resource.reload registry oracle r).2
          = [⟨"get", r._get_url, none, none, false⟩]) ∧
    (∀ (registry : Registry) (oracle : Oracle) (self : Resource)
        (name : String) (rd : RelDict) (ls : List (String × String))
        (url : String) (force : Bool),
      alookup self.relationships name = some (some rd) →
      rd.data = none →
      rd.links = some ls →
      alookup ls "related" = some url →
      (self.relResolved name = false ∨ force = true) →
      Resource.fetch registry oracle self [name] force
        = .ok (self.setRelated name (.qs ⟨some url, false⟩), [])) ∧
    (∀ url : String,
      Queryset.ensure_fetched ⟨some url, false⟩
        = (⟨some url, true⟩, [⟨"get", url, none, none, false⟩])) := by
  refine ⟨?_, ?_, ?_, ?_, fun url => rfl⟩
  · intro registry oracle self name force h
    simp [Resource.fetch, Resource.fetch_one, h]
  · intro registry oracle self name rd h hres
    simp [Resource.fetch, Resource.fetch_one, h, hres]
  · intro registry oracle self name rd r force h hdata hrel hcase
    have hcond : (self.relResolved name && !force) = false := by
      rcases hcase with hc | hc
      · simp [hc]
      · simp [hc]
    constructor
    · simp [Resource.fetch, Resource.fetch_one, h, hcond, hdata, hrel]
    · rfl
  · intro registry oracle self name rd ls url force h hdata hlinks hurl hcase
    have hcond : (self.relResolved name && !force) = false := by
      rcases hcase with hc | hc
      · simp [hc]
      · simp [hc]
    have hds : rd.data.isSome = false := by simp [hdata]
    simp [Resource.fetch, Resource.fetch_one, h, hcond, hds, hlinks, hurl,
      Queryset.ofUrl]

/-- C3 witness. -/
theorem C3_fetch_request_counts_witness :
    Resource.fetch [] (fun _ => ⟨⟨none, none, none, none, none, none⟩, none⟩)
      (.mk (some "children") none (some "1") []
        [("parent", some ⟨some ⟨some "parents", some "1"⟩, none⟩)]
        [("parent", .res (.mk (some "parents") none (some "1") [] [] [] []))]
        [])
      ["parent"] false
      = .ok ((Resource.mk (some "children") none (some "1") []
          [("parent", some ⟨some ⟨some "parents", some "1"⟩, none⟩)]
          [] []).setRelated "parent"
            (.res (Resource.reload []
              (fun _ => ⟨⟨none, none, none, none, none, none⟩, none⟩)
              (.mk (some "parents") none (some "1") [] [] [] [])).1),
        (Resource.reload []
          (fun _ => ⟨⟨none, none, none, none, none, none⟩, none⟩)
          (.mk (some "parents") none (some "1") [] [] [] [])).2) := by
  have h := (C3_fetch_request_counts.2.2.1) []
    (fun _ => ⟨⟨none, none, none, none, none, none⟩, none⟩)
    (.mk (some "children") none (some "1") []
      [("parent", some ⟨some ⟨some "parents", some "1"⟩, none⟩)]
      [("parent", .res (.mk (some "parents") none (some "1") [] [] [] []))]
      [])
    "parent" ⟨some ⟨some "parents", some "1"⟩, none⟩
    (.mk (some "parents") none (some "1") [] [] [] []) false
    (by decide) (by decide) rfl (Or.inl (by decide))
  exact h.1.trans (by rfl)

/-- C4 counterexample: `save` on an existing instance with the explicit
field list `[name, missing]`, where `missing` is neither a set attribute
nor a set relationship, transmits only `name` — the transmitted field set
is not "exactly the explicit field list", since unset names are silently
skipped. -/
theorem C4_counterexample :
    payloadAttrKeys (Resource._save_existing_payload
      (.mk (some "foos") none (some "1")
        [("name", .str "x"), ("other", .num 5)]
        [("parent", some ⟨some ⟨some "parents", some "1"⟩, none⟩)] [] [])
      ["name", "missing"]) = ["name"] ∧
    payloadRelKeys (Resource._save_existing_payload
      (.mk (some "foos") none (some "1")
        [("name", .str "x"), ("other", .num 5)]
        [("parent", some ⟨some ⟨some "parents", some "1"⟩, none⟩)] [] [])
      ["name", "missing"]) = [] ∧
    (Resource.save [] (fun _ => ⟨⟨none, none, none, none, none, none⟩, none⟩)
      (.mk (some "foos") none (some "1")
        [("name", .str "x"), ("other", .num 5)]
        [("parent", some ⟨some ⟨some "parents", some "1"⟩, none⟩)] [] [])
      ["name", "missing"]).2
      = [⟨"patch", "/foos/1",
          some (.payloadOne ⟨some "foos", some "1",
            some [("name", .str "x")], none⟩), none, false⟩] := by
  exact ⟨rfl, rfl, rfl⟩

/-- C4 amended: for an instance whose id is non-null and non-empty,
`save(fields...)` issues exactly one partial-update (`patch`) request on
the item URL, and the transmitted field set is exactly the currently-set
members (keys of `attributes`, else keys of `relationships`) of — in
priority order — the explicit field list if given, else the declared
`EDITABLE` list, else every currently-set attribute and relationship;
`save(name)` with `name` a set attribute thus transmits only `name`. -/
theorem C4_save_partial_update (registry : Registry) (oracle : Oracle)
    (self : Resource) (fields : List String) (s : String)
    (hid : self.id = some s) (hs : s ≠ "")
    (hnd : ((Resource.chosenFields self fields).getD []).Nodup) :
    (Resource.save registry oracle self fields).2
        = [⟨"patch", self._get_url,
            some (.payloadOne (Resource._save_existing_payload self fields)),
            none, false⟩] ∧
    (∀ fs, Resource.chosenFields self fields = some fs →
      payloadAttrKeys (Resource._save_existing_payload self fields)
          = fs.filter (fun f => akey self.attributes f) ∧
      payloadRelKeys (Resource._save_existing_payload self fields)
          = fs.filter (fun f =>
              !(akey self.attributes f) && akey self.relationships f)) ∧
    (Resource.chosenFields self fields = none →
      (Resource._save_existing_payload self fields).attributes
          = (if self.attributes.isEmpty then none else some self.attributes) ∧
      (Resource._save_existing_payload self fields).relationships
          = (if self.relationships.isEmpty then none
             else some self.relationships)) ∧
    (Resource._save_existing_payload self fields).type = self.TYPE ∧
    (Resource._save_existing_payload self fields).id = self.id := by
  have htr : pyTruthy self.id = true := by
    rw [hid]
    simp [pyTruthy, hs]
  refine ⟨?_, ?_, ?_, ?_, ?_⟩
  · simp [Resource.save, Resource._save_existing, htr]
  · intro fs hfs
    rw [hfs] at hnd
    have hbase : payloadAttrKeys (⟨self.TYPE, self.id, none, none⟩ : SavePayload) = [] := rfl
    have hbase2 : payloadRelKeys (⟨self.TYPE, self.id, none, none⟩ : SavePayload) = [] := rfl
    have h := save_fold_keys self fs ⟨self.TYPE, self.id, none, none⟩ hnd
      (by intro g hg; rw [hbase, hbase2]; simp)
    unfold Resource._save_existing_payload
    rw [hfs]
    constructor
    · rw [h.1, hbase]; rfl
    · rw [h.2, hbase2]; rfl
  · intro h
    unfold Resource._save_existing_payload
    rw [h]
    exact ⟨rfl, rfl⟩
  · unfold Resource._save_existing_payload
    rcases hch : Resource.chosenFields self fields with _ | fs
    · rfl
    · exact (save_fold_type_id self fs _).1
  · unfold Resource._save_existing_payload
    rcases hch : Resource.chosenFields self fields with _ | fs
    · rfl
    · exact (save_fold_type_id self fs _).2

/-- C4 witness. -/
theorem C4_save_partial_update_witness :
    (Resource.save [] (fun _ => ⟨⟨none, none, none, none, none, none⟩, none⟩)
      (.mk (some "foos") none (some "1")
        [("name", .str "x"), ("other", .num 5)]
        [("parent", some ⟨some ⟨some "parents", some "1"⟩, none⟩)] [] [])
      ["name"]).2
      = [⟨"patch", "/foos/1",
          some (.payloadOne (Resource._save_existing_payload
            (.mk (some "foos") none (some "1")
              [("name", .str "x"), ("other", .num 5)]
              [("parent", some ⟨some ⟨some "parents", some "1"⟩, none⟩)] [] [])
            ["name"])), none, false⟩] ∧
    payloadAttrKeys (Resource._save_existing_payload
      (.mk (some "foos") none (some "1")
        [("name", .str "x"), ("other", .num 5)]
        [("parent", some ⟨some ⟨some "parents", some "1"⟩, none⟩)] [] [])
      ["name"]) = ["name"] ∧
    payloadRelKeys (Resource._save_existing_payload
      (.mk (some "foos") none (some "1")
        [("name", .str "x"), ("other", .num 5)]
        [("parent", some ⟨some ⟨some "parents", some "1"⟩, none⟩)] [] [])
      ["name"]) = [] := by
  have h := C4_save_partial_update []
    (fun _ => ⟨⟨none, none, none, none, none, none⟩, none⟩)
    (.mk (some "foos") none (some "1")
      [("name", .str "x"), ("other", .num 5)]
      [("parent", some ⟨some ⟨some "parents", some "1"⟩, none⟩)] [] [])
    ["name"] "1" rfl (by decide) (by decide)
  refine ⟨h.1.trans (by rfl), ?_, ?_⟩
  · exact ((h.2.1 ["name"] rfl).1).trans (by rfl)
  · exact ((h.2.1 ["name"] rfl).2).trans (by rfl)

/-- C2: two `Resource` instances compare equal exactly when their
`(type, id)` pairs match, whatever their attributes, relationships, related
cache, or links hold — `__eq__` reduces both sides to resource-identifier
dicts built from the class `TYPE` and the instance `id` alone. -/
theorem C2_eq_iff_type_and_id (registry : Registry) (x y : Resource) :
    Resource.py_eq registry x (.res y) = true ↔
      x.TYPE = y.TYPE ∧ x.id = y.id := by
  simp [Resource.py_eq, Resource.as_resource, Resource.as_resource_identifier,
    ResourceIdentifier.mk.injEq]

/-- C5 counterexample: a plural relationship name that is also a key of
`attributes` is written through to the attribute mapping — no capability
error is raised and no update is rejected, contradicting the claim that
assignment to every plural relationship name raises. -/
theorem C5_counterexample :
    Resource.py_setattr []
      (.mk (some "parents") none (some "1") [("children", .num 1)]
        [("children", some ⟨none, some [("related", "/parents/1/children")]⟩)]
        [] [])
      "children" (.json (.num 2))
      = .updated (.mk (some "parents") none (some "1") [("children", .num 2)]
        [("children", some ⟨none, some [("related", "/parents/1/children")]⟩)]
        [] []) := by
  rfl

/-- C5 amended: for every name that is not one of the fixed structural
fields and not a key of `attributes`, and whose relationship descriptor is
plural (present, with no `data` key), attribute-style assignment raises the
capability error directing the caller to add/remove/reset, whatever the
assigned value; no updated instance is produced, so the descriptor is never
replaced. -/
theorem C5_plural_write_error (registry : Registry) (self : Resource)
    (name : String) (value : SetVal) (rd : RelDict)
    (h1 : name ∉ setattrFixedNames)
    (h2 : akey self.attributes name = false)
    (h3 : alookup self.relationships name = some (some rd))
    (h4 : rd.data = none) :
    Resource.py_setattr registry self name value
      = .attrError (Resource.pluralWriteError name) := by
  simp [Resource.py_setattr, h1, h2, h3, h4]

/-- C5 witness. -/
theorem C5_plural_write_error_witness :
    Resource.py_setattr []
      (.mk (some "parents") none (some "1") []
        [("children", some ⟨none, some [("related", "/parents/1/children")]⟩)]
        [] [])
      "children" (.json (.num 2))
      = .attrError (Resource.pluralWriteError "children") :=
  C5_plural_write_error [] _ "children" (.json (.num 2))
    ⟨none, some [("related", "/parents/1/children")]⟩
    (by decide) (by decide) (by decide) (by decide)

/-- C6 counterexample: reading a plural relationship that has not been
fetched falls through to ordinary attribute lookup (an `AttributeError`),
because `__getattr__` consults the `related` cache, not `relationships`,
and plural names are never seeded into the cache. -/
theorem C6_counterexample :
    Resource.py_getattr
      (.mk (some "parents") none (some "1") []
        [("children", some ⟨none, some [("related", "/parents/1/children")]⟩)]
        [] [])
      "children" = .missing := by
  rfl

/-- C6 amended: for a name that is not structural and not a key of
`attributes`, a read returns the cached `related` entry when the name is a
key of the cache — which is always the case for singular relationship names
after decode, since `_overwrite` seeds every singular descriptor — and
falls through to ordinary lookup (failing) when it is not, which is the
state of a plural relationship before its first `fetch`. -/
theorem C6_read_related (self : Resource) :
    (∀ name v, name ∉ getattrFixedNames →
      akey self.attributes name = false →
      alookup self.related name = some v →
      Resource.py_getattr self name = .rel v) ∧
    (∀ name, name ∉ getattrFixedNames →
      akey self.attributes name = false →
      alookup self.related name = none →
      Resource.py_getattr self name = .missing) ∧
    (∀ (registry : Registry) (rels : List (String × RelDescriptor))
        (name : String) (rd : RelDict) (ri : ResourceIdentifier),
      (akeys rels).Nodup →
      alookup rels name = some (some rd) →
      rd.data = some ri →
      alookup (Resource.seedRelated registry rels) name
        = some (.res (Resource.new_from_identifier registry ri.type ri.id))) := by
  refine ⟨?_, ?_, ?_⟩
  · intro name v h1 h2 h3
    have h2m : alookup self.attributes name = none :=
      alookup_eq_none_of_akey_false _ _ h2
    simp [Resource.py_getattr, h1, h2m, h3]
  · intro name h1 h2 h3
    have h2m : alookup self.attributes name = none :=
      alookup_eq_none_of_akey_false _ _ h2
    simp [Resource.py_getattr, h1, h2m, h3]
  · intro registry rels name rd ri hnd hl hd
    unfold Resource.seedRelated
    refine alookup_foldl_nodup _ ?_ rels name (some rd) _ ?_ [] hnd hl
    · intro acc p n hne
      obtain ⟨k, d⟩ := p
      simp only at hne
      cases d with
      | none => exact alookup_ainsert_ne _ _ _ _ hne
      | some rd2 =>
        cases hd2 : rd2.data with
        | none => simp [hd2]
        | some ri2 => simpa [hd2] using alookup_ainsert_ne acc k n _ hne
    · intro acc2
      simp [hd, alookup_ainsert_self]

/-- C6 witness. -/
theorem C6_read_related_witness :
    Resource.py_getattr
      (.mk (some "children") none (some "1") []
        [("parent", some ⟨some ⟨some "parents", some "1"⟩, none⟩)]
        [("parent", .res (.mk (some "parents") none (some "1") [] [] [] []))]
        [])
      "parent"
      = .rel (.res (.mk (some "parents") none (some "1") [] [] [] [])) ∧
    Resource.py_getattr
      (.mk (some "parents") none (some "1") []
        [("children", some ⟨none, some [("related", "/c")]⟩)] [] [])
      "children" = .missing ∧
    alookup
      (Resource.seedRelated []
        [("parent", some ⟨some ⟨some "parents", some "1"⟩, none⟩)]) "parent"
      = some (.res (Resource.new_from_identifier [] (some "parents") (some "1"))) := by
  refine ⟨?_, ?_, ?_⟩
  · exact (C6_read_related _).1 "parent" _ (by decide) (by decide) rfl
  · exact (C6_read_related _).2.1 "children" (by decide) (by decide) rfl
  · exact (C6_read_related
      (.mk none none none [] [] [] [])).2.2 []
      [("parent", some ⟨some ⟨some "parents", some "1"⟩, none⟩)] "parent"
      ⟨some ⟨some "parents", some "1"⟩, none⟩ ⟨some "parents", some "1"⟩
      (by decide) (by decide) (by decide)

/-- C7 counterexample: resolving an unregistered type name through
`Resource.new` does not retain the type tag — the fallback instance is the
untyped base class and its resource identifier carries a null type, not the
requested name. -/
theorem C7_counterexample :
    (Resource.new_from_identifier [("parents", ⟨some "parents", none⟩)]
        (some "unknowns") (some "1")).as_resource_identifier
      = ⟨none, some "1"⟩ ∧
    (⟨none, some "1"⟩ : ResourceIdentifier) ≠ ⟨some "unknowns", some "1"⟩ := by
  exact ⟨rfl, by decide⟩

/-- C7 amended: resolving a registered type name returns an instance of the
registered class (its `TYPE` and `EDITABLE`); an unregistered name returns
a bare base-class instance whose type tag is null — the requested name is
discarded, so the resource identifier of the fallback carries a null type. -/
theorem C7_resolve_registered_or_fallback :
    (∀ (registry : Registry) (s : String) (i : Option String)
        (pr : String × ResourceClass),
      registry.find? (fun p => p.1 == s) = some pr →
      Resource.new_from_identifier registry (some s) i
        = .mk pr.2.TYPE pr.2.EDITABLE i [] [] [] []) ∧
    (∀ (registry : Registry) (s : String) (i : Option String),
      registry.find? (fun p => p.1 == s) = none →
      Resource.new_from_identifier registry (some s) i
          = .mk none none i [] [] [] [] ∧
        (Resource.new_from_identifier registry (some s) i).as_resource_identifier
          = ⟨none, i⟩) := by
  constructor
  · intro registry s i pr h
    simp [Resource.new_from_identifier, resolveClass, h]
  · intro registry s i h
    constructor
    · simp [Resource.new_from_identifier, resolveClass, baseClass, h]
    · simp [Resource.new_from_identifier, resolveClass, baseClass, h,
        Resource.as_resource_identifier, Resource.TYPE, Resource.id]

/-- C7 witness. -/
theorem C7_resolve_witness :
    Resource.new_from_identifier [("parents", ⟨some "parents", some ["name"]⟩)]
        (some "parents") (some "1")
      = .mk (some "parents") (some ["name"]) (some "1") [] [] [] [] ∧
    Resource.new_from_identifier [("parents", ⟨some "parents", some ["name"]⟩)]
        (some "unknowns") (some "1")
      = .mk none none (some "1") [] [] [] [] := by
  constructor
  · exact C7_resolve_registered_or_fallback.1 _ "parents" (some "1")
      ("parents", ⟨some "parents", some ["name"]⟩) (by decide)
  · exact (C7_resolve_registered_or_fallback.2 _ "unknowns" (some "1")
      (by decide)).1

/-- C8 counterexample: constructing a `parents` variant from a payload whose
`type` field says `children` succeeds — the `type` of the payload is silently
swallowed by the ignored `_overwrite` keyword, no validation error is
raised, and the instance keeps the own type of the variant. -/
theorem C8_counterexample :
    Resource.init [] (some "parents") none
      (some (.bare ⟨⟨some "children", some "1", none, none, none, none⟩, none⟩))
      none none none none none none
      = .ok (.mk (some "parents") none (some "1") [] [] [] []) := by
  rfl

/-- C8 amended: a mismatching type fails construction only when supplied as
the explicit `type` keyword argument; a `type` field inside a passed payload
or envelope is ignored — construction succeeds and the instance keeps the
fixed `TYPE` of the variant. -/
theorem C8_type_check_kwarg_only :
    (∀ (registry : Registry) (T : Option String) (E : Option (List String))
        (arg : Option InitArg) (kwId : Option String)
        (kwA : Option (List (String × JsonValue)))
        (kwR : Option (List (String × RelInput)))
        (kwL : Option (List (String × String)))
        (kwRel : Option (List (String × RelatedValue))) (t : String),
      T ≠ some t →
      Resource.init registry T E arg kwId kwA kwR kwL kwRel (some t)
        = .error "ValueError: Invalid type") ∧
    (∀ (registry : Registry) (T : Option String) (E : Option (List String))
        (p : Payload) (u v : String),
      p.obj.type = some u → T = some v → u ≠ v →
      Resource.init registry T E (some (.bare p)) none none none none none none
          = .ok (Resource._overwrite registry T E p) ∧
        (Resource._overwrite registry T E p).TYPE = T) ∧
    (∀ (registry : Registry) (T : Option String) (E : Option (List String))
        (d : ResourceObject) (inc : Option (List ResourceObject)) (u v : String),
      d.type = some u → T = some v → u ≠ v →
      Resource.init registry T E (some (.env d inc)) none none none none none none
        = .ok (Resource._overwrite registry T E ⟨d, none⟩)) := by
  refine ⟨?_, ?_, ?_⟩
  · intro registry T E arg kwId kwA kwR kwL kwRel t h
    simp [Resource.init, h]
  · intro registry T E p u v _ _ _
    constructor
    · simp [Resource.init, Resource.init.initBody]
    · simp [Resource._overwrite, Resource.TYPE]
  · intro registry T E d inc u v _ _ _
    simp [Resource.init, Resource.init.initBody]

/-- C8 witness. -/
theorem C8_type_check_witness :
    Resource.init [] (some "parents") none none
        none none none none none (some "children")
      = .error "ValueError: Invalid type" ∧
    Resource.init [] (some "parents") none
        (some (.bare ⟨⟨some "children", some "2", none, none, none, none⟩, none⟩))
        none none none none none none
      = .ok (Resource._overwrite [] (some "parents") none
          ⟨⟨some "children", some "2", none, none, none, none⟩, none⟩) := by
  constructor
  · exact C8_type_check_kwarg_only.1 [] (some "parents") none none
      none none none none none "children" (by decide)
  · exact (C8_type_check_kwarg_only.2.1 [] (some "parents") none
      ⟨⟨some "children", some "2", none, none, none, none⟩, none⟩
      "children" "parents" rfl rfl (by decide)).1

/-- C9: `add`, `remove` and `reset` each issue exactly one request against
the own `self` link of the relationship, carrying the normalized identifier
list, and return the instance unchanged — no entry of the `related` cache
is created, removed, or modified. -/
theorem C9_plural_edits_frame (registry : Registry) (self : Resource)
    (field : String) (values : List ItemInput) (rd : RelDict)
    (ls : List (String × String)) (url : String)
    (h1 : alookup self.relationships field = some (some rd))
    (h2 : rd.links = some ls)
    (h3 : alookup ls "self" = some url) :
    Resource.add registry self field values
        = .ok (self, [⟨"post", url,
            some (.identList (values.map (fun it =>
              (Resource.as_resource registry it).as_resource_identifier))),
            none, false⟩]) ∧
    Resource.remove registry self field values
        = .ok (self, [⟨"delete", url,
            some (.identList (values.map (fun it =>
              (Resource.as_resource registry it).as_resource_identifier))),
            none, false⟩]) ∧
    Resource.reset registry self field values
        = .ok (self, [⟨"patch", url,
            some (.identList (values.map (fun it =>
              (Resource.as_resource registry it).as_resource_identifier))),
            none, false⟩]) := by
  refine ⟨?_, ?_, ?_⟩ <;>
    simp [Resource.add, Resource.remove, Resource.reset,
      Resource._edit_plural_relationship, Resource._edit_relationship,
      h1, h2, h3]

/-- C9 witness. -/
theorem C9_plural_edits_frame_witness :
    Resource.add [("children", ⟨some "children", none⟩)]
      (.mk (some "parents") none (some "1") []
        [("children", some ⟨none,
          some [("self", "/parents/1/relationships/children"),
                ("related", "/parents/1/children")]⟩)] [] [])
      "children" [.ident (some "children") (some "2")]
      = .ok (.mk (some "parents") none (some "1") []
          [("children", some ⟨none,
            some [("self", "/parents/1/relationships/children"),
                  ("related", "/parents/1/children")]⟩)] [] [],
        [⟨"post", "/parents/1/relationships/children",
          some (.identList [⟨some "children", some "2"⟩]), none, false⟩]) := by
  have h := C9_plural_edits_frame [("children", ⟨some "children", none⟩)]
    (.mk (some "parents") none (some "1") []
      [("children", some ⟨none,
        some [("self", "/parents/1/relationships/children"),
              ("related", "/parents/1/children")]⟩)] [] [])
    "children" [.ident (some "children") (some "2")]
    ⟨none, some [("self", "/parents/1/relationships/children"),
                 ("related", "/parents/1/children")]⟩
    [("self", "/parents/1/relationships/children"),
     ("related", "/parents/1/children")]
    "/parents/1/relationships/children"
    (by decide) (by decide) (by decide)
  exact h.1

/-- C10: an item that is neither a `Resource`, nor a mapping, nor an
iterable unpackable into exactly two or three elements — a one-element
tuple or a non-iterable scalar — makes `_extract_from_item` raise a
`TypeError` instead of normalizing the item as bare attributes with null
relationships and id, and `bulk_create`/`bulk_update` on a list containing
such an item raise the same error. -/
theorem C10_extract_type_error :
    (∀ x, Resource._extract_from_item (.tup1 x)
      = .error "TypeError: can not unpack non-iterable NoneType object") ∧
    (∀ n : Int, Resource._extract_from_item (.scalar n)
      = .error "TypeError: can not unpack non-iterable object") ∧
    (∀ (registry : Registry) (oracle : Oracle) (cls : ResourceClass)
        (a : Option (List (String × JsonValue)))
        (rels : Option (List (String × ItemInput))) (x : List (String × JsonValue)),
      Resource.bulk_create registry oracle cls [.dict a rels none, .tup1 x]
        = .error "TypeError: can not unpack non-iterable NoneType object") ∧
    (∀ (registry : Registry) (oracle : Oracle) (cls : ResourceClass)
        (n : Int) (fieldsArg : Option (List String)),
      Resource.bulk_update registry oracle cls [.scalar n] fieldsArg
        = .error "TypeError: can not unpack non-iterable object") := by
  refine ⟨fun x => rfl, fun n => rfl, ?_, ?_⟩
  · intro registry oracle cls a rels x
    simp [Resource.bulk_create, Resource.bulk_create_payload,
      Resource._extract_from_item]
  · intro registry oracle cls n fieldsArg
    simp [Resource.bulk_update, Resource.bulk_update_payload,
      Resource._extract_from_item]

end Jsonapi
